import Mathlib

/-!
Shallow embedding of the f8-slackbot webhook core: the Slack signature
verifier (`verifySlackSignature` in `src/utils/slack-verification.ts`) and
the keyword-routing agent dispatcher (`routeToAgent`, `determineAgentUrl`
in `src/services/agent-router.ts`), together with the slash-command
handler's error wrapping (`processSlackCommand` in
`src/handlers/slack-commands.ts` and the catch block of the
`/api/slack/commands` endpoint in `src/server.ts`).

JavaScript-level behaviour that the claims depend on is modelled
explicitly: `parseInt` returning NaN (as `Option Int`, where `none` plays
the role of NaN and every comparison against NaN is false),
falsiness of `undefined` and of the empty string, substring search as in
`String.prototype.includes`, ASCII case folding as in `toLowerCase`, and
`crypto.timingSafeEqual` throwing a `RangeError` when the two buffers have
different byte lengths (modelled with `Except`).  The HMAC-SHA256 digest
supplied by Node's `crypto` module is an external primitive and is passed
in as an explicit function argument `hmacHex : String → String → String`
(secret, message ↦ lowercase hex digest); nothing about its internals is
assumed. Outbound HTTP calls made with axios are external as well: each
potential call site receives the outcome of the call (`Except Unit
AgentResponse`) as an argument, and the router definitions additionally
return counters recording how many calls each site performed.
-/

/-- Decidable equality for `Except`, so that concrete runs of the
fallible embeddings can be settled by `decide`. -/
instance {ε α : Type} [DecidableEq ε] [DecidableEq α] :
    DecidableEq (Except ε α) := fun a b =>
  match a, b with
  | .ok x, .ok y =>
    if h : x = y then isTrue (congrArg Except.ok h)
    else isFalse (fun hc => h (Except.ok.inj hc))
  | .error x, .error y =>
    if h : x = y then isTrue (congrArg Except.error h)
    else isFalse (fun hc => h (Except.error.inj hc))
  | .ok _, .error _ => isFalse (fun hc => Except.noConfusion hc)
  | .error _, .ok _ => isFalse (fun hc => Except.noConfusion hc)

/-- Model of JavaScript whitespace accepted by `parseInt` before the
number (restricted to the ASCII whitespace characters, which are the only
ones that can occur in the claims' inputs). -/
def isJsSpace (c : Char) : Bool :=
  c == ' ' || c == '\t' || c == '\n' || c == '\r'

/-- Value of a non-empty list of decimal digit characters, most
significant first. -/
def digitsToNat (l : List Char) : Nat :=
  l.foldl (fun n c => 10 * n + (c.toNat - 48)) 0

/-- Value of the longest leading run of decimal digits, `none` when there
is no leading digit. -/
def leadingDigitsVal (cs : List Char) : Option Nat :=
  let ds := cs.takeWhile Char.isDigit
  if ds.isEmpty then none else some (digitsToNat ds)

/-- Model of JavaScript `parseInt(s, 10)`: skip leading whitespace, read
an optional sign and then the longest run of decimal digits; `none`
models the NaN result produced when no digit is found. (JavaScript
numbers are floating point, but the replay-window arithmetic in the
verifier only ever involves integral second counts, so `Int` is exact
for every input the claims range over.) -/
def parseIntJs (s : String) : Option Int :=
  match s.data.dropWhile isJsSpace with
  | '+' :: t => (leadingDigitsVal t).map Int.ofNat
  | '-' :: t => (leadingDigitsVal t).map (fun n => -(Int.ofNat n))
  | cs => (leadingDigitsVal cs).map Int.ofNat

/-- Model of JavaScript string falsiness as used in `if (!x)` /
`if (x)` on `process.env` values: `undefined` (here `none`) and the empty
string are falsy, every other string is truthy. -/
def jsFalsy : Option String → Bool
  | none => true
  | some s => s == ""

/-- Substring occurrence test on character lists: does `pat` occur
contiguously inside the second list? (Empty pattern occurs in every
list, as with JavaScript `includes`.) -/
def listHasSub (pat : List Char) : List Char → Bool
  | [] => pat.isEmpty
  | c :: t => pat.isPrefixOf (c :: t) || listHasSub pat t

/-- Model of JavaScript `s.includes(pat)`. -/
def jsIncludes (s pat : String) : Bool :=
  listHasSub pat.data s.data

/-- Model of JavaScript `s.toLowerCase()` restricted to ASCII case
folding (`Char.toLower` only folds basic latin letters; every keyword in
the routing table is ASCII). -/
def jsToLower (s : String) : String :=
  ⟨s.data.map Char.toLower⟩

/-- The expected signature computed at `slack-verification.ts:25-29`:
`'v0=' + hex(HMAC-SHA256(secret, 'v0:' + timestamp + ':' + body))`, with
the digest primitive passed in as `hmacHex`. -/
def expectedSignature (hmacHex : String → String → String)
    (secret timestamp body : String) : String :=
  "v0=" ++ hmacHex secret ("v0:" ++ timestamp ++ ":" ++ body)

/-- The message of the `RangeError` thrown by Node's
`crypto.timingSafeEqual` when the two buffers differ in byte length. -/
def rangeErrorMessage : String :=
  "RangeError: Input buffers must have the same byte length"

/-- Model of `crypto.timingSafeEqual(Buffer.from(a), Buffer.from(b))`:
the buffers hold the UTF-8 encodings, so the call throws a `RangeError`
when the UTF-8 byte lengths differ and otherwise returns byte equality,
which on valid strings coincides with string equality. -/
def timingSafeEqual (a b : String) : Except String Bool :=
  if a.utf8ByteSize = b.utf8ByteSize then .ok (a == b)
  else .error rangeErrorMessage

/-- The replay-window test at `slack-verification.ts:16-22`:
`Math.abs(currentTime - parseInt(timestamp, 10)) > 300`.  When
`parseInt` yields NaN the JavaScript comparison `NaN > 300` is false, so
the guard does not fire; this is the `none` branch. -/
def freshnessFails (now : Int) (timestamp : String) : Bool :=
  match parseIntJs timestamp with
  | none => false
  | some t => 300 < (now - t).natAbs

/-- Embedding of `verifySlackSignature(body, signature, timestamp)` from
`src/utils/slack-verification.ts`.  The environment secret
`process.env.SLACK_SIGNING_SECRET` and the current time
`Math.floor(Date.now() / 1000)` are explicit arguments; `Except` records
the exception behaviour of the final `crypto.timingSafeEqual` call,
which the source does not guard with any try/catch. -/
def verifySlackSignature (hmacHex : String → String → String)
    (slackSigningSecret : Option String) (now : Int)
    (body signature timestamp : String) : Except String Bool :=
  match slackSigningSecret with
  | none => .ok false
  | some secret =>
    if secret == "" then .ok false
    else if freshnessFails now timestamp then .ok false
    else timingSafeEqual signature (expectedSignature hmacHex secret timestamp body)

/-- The routing categories of `determineAgentUrl`
(`src/services/agent-router.ts:112-211`), one per keyword block, named as
the keys of the `agentUrls` object literal. -/
inductive AgentCategory where
  | compliance
  | formulation
  | science
  | marketing
  | operations
  | sourcing
  | patent
  | spectra
  | customerSuccess
deriving DecidableEq

/-- The per-category endpoint environment variables read at
`agent-router.ts:116-126` (`COMPLIANCE_AGENT_URL`, ..,
`CUSTOMER_SUCCESS_AGENT_URL`), each possibly unset. -/
structure AgentUrls where
  compliance : Option String
  formulation : Option String
  science : Option String
  operations : Option String
  marketing : Option String
  sourcing : Option String
  patent : Option String
  spectra : Option String
  customerSuccess : Option String
deriving DecidableEq

/-- Model of the JavaScript expression `url || null`: an unset or empty
environment value collapses to `null` (`none`). -/
def orNull : Option String → Option String
  | none => none
  | some s => if s == "" then none else some s

/-- Compliance keywords, `agent-router.ts:129-133`. -/
def complianceKeywords : List String :=
  ["compliance", "regulation", "fda", "legal", "sop"]

/-- Formulation keywords, `agent-router.ts:138-142`. -/
def formulationKeywords : List String :=
  ["formulation", "recipe", "ingredient", "dosage", "concentration"]

/-- Science keywords, `agent-router.ts:147-151`. -/
def scienceKeywords : List String :=
  ["science", "research", "study", "analysis", "testing"]

/-- Marketing keywords, `agent-router.ts:156-160`. -/
def marketingKeywords : List String :=
  ["marketing", "brand", "promotion", "advertising", "social media"]

/-- Operations keywords, `agent-router.ts:165-169`. -/
def operationsKeywords : List String :=
  ["operation", "process", "workflow", "efficiency", "management"]

/-- Sourcing keywords, `agent-router.ts:174-178`. -/
def sourcingKeywords : List String :=
  ["sourcing", "supplier", "vendor", "procurement", "supply chain"]

/-- Patent keywords, `agent-router.ts:183-187`.  Note the third keyword
is the bare substring `"ip"`, exactly as in
`messageLower.includes('ip')`. -/
def patentKeywords : List String :=
  ["patent", "intellectual property", "ip", "trademark", "copyright"]

/-- Spectra (lab-analysis) keywords, `agent-router.ts:192-196`. -/
def spectraKeywords : List String :=
  ["spectra", "gcms", "coa", "testing", "analysis"]

/-- Customer-success keywords, `agent-router.ts:201-205`. -/
def customerSuccessKeywords : List String :=
  ["customer", "support", "help", "issue", "problem"]

/-- Disjunction of `messageLower.includes(k)` over a keyword block. -/
def matchesAny (messageLower : String) (kws : List String) : Bool :=
  kws.any (fun k => jsIncludes messageLower k)

/-- The `if`-cascade of `determineAgentUrl` applied to the already
lower-cased message, returning the matched category (`none` when no
block matches and the final default of line 210 applies). -/
def categoryOfLower (ml : String) : Option AgentCategory :=
  if matchesAny ml complianceKeywords then some .compliance
  else if matchesAny ml formulationKeywords then some .formulation
  else if matchesAny ml scienceKeywords then some .science
  else if matchesAny ml marketingKeywords then some .marketing
  else if matchesAny ml operationsKeywords then some .operations
  else if matchesAny ml sourcingKeywords then some .sourcing
  else if matchesAny ml patentKeywords then some .patent
  else if matchesAny ml spectraKeywords then some .spectra
  else if matchesAny ml customerSuccessKeywords then some .customerSuccess
  else none

/-- Category matched for a raw message, after the
`message.toLowerCase()` of `agent-router.ts:113`. -/
def categoryOf (message : String) : Option AgentCategory :=
  categoryOfLower (jsToLower message)

/-- The `agentUrls` entry for a category. -/
def urlFor (cfg : AgentUrls) : AgentCategory → Option String
  | .compliance => cfg.compliance
  | .formulation => cfg.formulation
  | .science => cfg.science
  | .marketing => cfg.marketing
  | .operations => cfg.operations
  | .sourcing => cfg.sourcing
  | .patent => cfg.patent
  | .spectra => cfg.spectra
  | .customerSuccess => cfg.customerSuccess

/-- Embedding of `determineAgentUrl(message)`
(`agent-router.ts:112-211`): each keyword block returns
`agentUrls.<category> || null`, and when no block matches the final line
returns `agentUrls.compliance || null`. -/
def determineAgentUrl (cfg : AgentUrls) (message : String) : Option String :=
  match categoryOf message with
  | some c => orNull (urlFor cfg c)
  | none => orNull cfg.compliance

/-- Restatement of the spec's classification policy (section 4.2 of the
spec): an ordered table of `(category, keywords)` pairs in the
documented evaluation order — compliance, formulation, science,
marketing, operations, sourcing, patent, lab-analysis (spectra),
customer-support — scanned by a generic first-match search.  Used to
compare the source's `if`-cascade against the spec's
"first matching category wins in this fixed order" description. -/
def specEvaluationOrder : List (AgentCategory × List String) :=
  [(.compliance, complianceKeywords),
   (.formulation, formulationKeywords),
   (.science, scienceKeywords),
   (.marketing, marketingKeywords),
   (.operations, operationsKeywords),
   (.sourcing, sourcingKeywords),
   (.patent, patentKeywords),
   (.spectra, spectraKeywords),
   (.customerSuccess, customerSuccessKeywords)]

/-- Generic first-match category selection over `specEvaluationOrder`,
following the spec's words. -/
def firstMatchCategoryLower (ml : String) : Option AgentCategory :=
  (specEvaluationOrder.find? (fun p => matchesAny ml p.2)).map Prod.fst

/-- First-match category selection for a raw message. -/
def firstMatchCategory (message : String) : Option AgentCategory :=
  firstMatchCategoryLower (jsToLower message)

/-- The token-usage record carried by a successful agent answer
(`agent-router.ts:20-24`).  The floating-point `cost` field and the
attachment footer string built from it are outside the embedding (no
claim touches them); the integer token count and model name are kept. -/
structure AgentUsage where
  total_tokens : Nat
  model : String
deriving DecidableEq

/-- The `AgentResponse` interface of `agent-router.ts:16-26`. -/
structure AgentResponse where
  success : Bool
  message : String
  agent : Option String
  usage : Option AgentUsage
  timestamp : Option String
deriving DecidableEq

/-- The `AgentRequest` interface of `agent-router.ts:6-14`.  The open
`context` object is forwarded verbatim into the outbound HTTP payload
and never inspected by the router, so it is not modelled. -/
structure AgentRequest where
  message : String
  user_id : String
deriving DecidableEq

/-- Failure message returned by `routeDirectly` when no endpoint is
configured for the selected category (`agent-router.ts:78`). -/
def noAgentFoundMessage : String :=
  "No suitable agent found for this request"

/-- Failure message returned by `routeDirectly` when the direct HTTP
call throws (`agent-router.ts:106`). -/
def directErrorMessage : String :=
  "Error processing request. Please try again later."

/-- The `{success: false, message: 'No suitable agent found...'}` result
of `agent-router.ts:76-80`, with `new Date().toISOString()` passed in as
`now`. -/
def noAgentFoundResponse (now : String) : AgentResponse :=
  ⟨false, noAgentFoundMessage, none, none, some now⟩

/-- The `{success: false, message: 'Error processing request...'}`
result of `agent-router.ts:104-108`. -/
def directErrorResponse (now : String) : AgentResponse :=
  ⟨false, directErrorMessage, none, none, some now⟩

/-- Embedding of `routeDirectly(request)` (`agent-router.ts:71-110`).
The outcome of the single possible `axios.post` to
`{agentUrl}/query` is the `directOutcome` argument; the second
component counts how many direct HTTP calls were issued (0 or 1). -/
def routeDirectly (cfg : AgentUrls) (req : AgentRequest)
    (directOutcome : Except Unit AgentResponse) (now : String) :
    AgentResponse × Nat :=
  match determineAgentUrl cfg req.message with
  | none => (noAgentFoundResponse now, 0)
  | some _ =>
    match directOutcome with
    | .ok r => (r, 1)
    | .error _ => (directErrorResponse now, 1)

/-- Call counters accumulated by one `routeToAgent` invocation:
gateway HTTP calls, invocations of `routeDirectly`, and direct HTTP
calls issued inside it. -/
structure RouteTrace where
  gatewayCalls : Nat
  directAttempts : Nat
  directHttpCalls : Nat
deriving DecidableEq

/-- Embedding of `routeViaPlatformGateway(request, platformUrl)`
(`agent-router.ts:40-69`): one `axios.post` to `{platformUrl}/api/chat`
whose outcome is `gatewayOutcome`; on success its body is returned, on
any thrown error the catch block falls back to `routeDirectly`. -/
def routeViaPlatformGateway (cfg : AgentUrls) (req : AgentRequest)
    (gatewayOutcome directOutcome : Except Unit AgentResponse)
    (now : String) : AgentResponse × RouteTrace :=
  match gatewayOutcome with
  | .ok r => (r, ⟨1, 0, 0⟩)
  | .error _ =>
    let d := routeDirectly cfg req directOutcome now
    (d.1, ⟨1, 1, d.2⟩)

/-- Embedding of `routeToAgent(request)` (`agent-router.ts:28-38`):
`if (platformGatewayUrl)` chooses the gateway path, otherwise
`routeDirectly` is used immediately. -/
def routeToAgent (platformGatewayUrl : Option String) (cfg : AgentUrls)
    (req : AgentRequest)
    (gatewayOutcome directOutcome : Except Unit AgentResponse)
    (now : String) : AgentResponse × RouteTrace :=
  if jsFalsy platformGatewayUrl then
    let d := routeDirectly cfg req directOutcome now
    (d.1, ⟨0, 1, d.2⟩)
  else
    routeViaPlatformGateway cfg req gatewayOutcome directOutcome now

/-- The `response_type` values of the `SlackCommandResponse` interface
(`slack-commands.ts:13`). -/
inductive SlackResponseType where
  | in_channel
  | ephemeral
deriving DecidableEq

/-- The `SlackCommandResponse` interface (`slack-commands.ts:12-19`).
`attachments` records the usage block the success branch builds its
single attachment from (`slack-commands.ts:45-50`); the failure and
catch branches set no attachments. -/
structure SlackCommandResponse where
  response_type : SlackResponseType
  text : String
  attachments : Option AgentUsage
deriving DecidableEq

/-- A JavaScript thrown value as discriminated by
`error instanceof Error ? error.message : 'Unknown error'`. -/
inductive JsThrown where
  | err (msg : String)
  | other
deriving DecidableEq

/-- The message text the catch blocks extract from a thrown value. -/
def thrownMessage : JsThrown → String
  | .err m => m
  | .other => "Unknown error"

/-- Embedding of `processSlackCommand(request)`
(`slack-commands.ts:21-65`).  Everything inside the try block other
than the awaited `routeToAgent` call is total, so the handler's result
is a function of that call's outcome: body on success, the
`'Error: ' + response.message` ephemeral reply when `success` is false,
and the catch block's `'Error: ' + error.message` ephemeral reply when
the call throws. -/
def processSlackCommand (routeOutcome : Except JsThrown AgentResponse) :
    SlackCommandResponse :=
  match routeOutcome with
  | .ok r =>
    if r.success then ⟨.in_channel, r.message, r.usage⟩
    else ⟨.ephemeral, "Error: " ++ r.message, none⟩
  | .error e => ⟨.ephemeral, "Error: " ++ thrownMessage e, none⟩

/-- Embedding of the catch block of the `/api/slack/commands` endpoint
(`server.ts:145-151`), which replies with
`'Error: ' + (error instanceof Error ? error.message : 'Unknown error')`
as an ephemeral message. -/
def commandsEndpointCatch (e : JsThrown) : SlackCommandResponse :=
  ⟨.ephemeral, "Error: " ++ thrownMessage e, none⟩

/-- A fixed 64-hex-character digest used to instantiate the abstract
`hmacHex` argument in concrete witnesses. -/
def hex64zeros : String :=
  "0000000000000000000000000000000000000000000000000000000000000000"

/-- A concrete stand-in digest function for witnesses. -/
def constHmacHex : String → String → String :=
  fun _ _ => hex64zeros

/-- Endpoint table with every category unset, for witnesses. -/
def emptyUrls : AgentUrls :=
  ⟨none, none, none, none, none, none, none, none, none⟩

/-- A sample successful agent answer, for witnesses. -/
def sampleOk : AgentResponse :=
  ⟨true, "hi", none, none, none⟩

/-- C2: for every parseable timestamp more than 300 seconds from the
current time — past or future — `verifySlackSignature` returns false
regardless of the secret and of the claimed signature, and a timestamp
exactly 300 seconds away is not rejected by the freshness check. -/
theorem verify_rejects_outside_replay_window
    (hmacHex : String → String → String) (secret : Option String)
    (now : Int) (body signature timestamp : String) (t : Int)
    (hp : parseIntJs timestamp = some t) :
    (300 < (now - t).natAbs →
      verifySlackSignature hmacHex secret now body signature timestamp = .ok false)
    ∧ ((now - t).natAbs = 300 → freshnessFails now timestamp = false) := by
  constructor
  · intro hgt
    have hf : freshnessFails now timestamp = true := by
      unfold freshnessFails
      rw [hp]
      simpa using hgt
    cases secret with
    | none => rfl
    | some s => simp [verifySlackSignature, hf]
  · intro heq
    unfold freshnessFails
    rw [hp]
    simp [heq]

/-- Witness for C2 at a concrete input: current time 1000 with
timestamp "100" (900 seconds old) is rejected, and with timestamp "700"
(exactly 300 seconds old) the freshness check does not fire. -/
theorem verify_rejects_outside_replay_window_witness :
    verifySlackSignature constHmacHex (some "secret") 1000 "{}" "v0=x" "100" = .ok false
    ∧ freshnessFails 1000 "700" = false :=
  ⟨(verify_rejects_outside_replay_window constHmacHex (some "secret") 1000 "{}" "v0=x"
      "100" 100 (by decide)).1 (by decide),
   (verify_rejects_outside_replay_window constHmacHex (some "secret") 1000 "{}" "v0=x"
      "700" 700 (by decide)).2 (by decide)⟩

/-- C4: when the signing secret is absent from the environment,
`verifySlackSignature` returns false for every body, signature and
timestamp, and never throws. -/
theorem verify_fails_closed_when_secret_missing
    (hmacHex : String → String → String) (now : Int)
    (body signature timestamp : String) :
    verifySlackSignature hmacHex none now body signature timestamp = .ok false :=
  rfl

/-- C10: when the timestamp string does not parse as a number (`parseInt`
yields NaN), the freshness check does not reject the request and the
verifier proceeds to the HMAC signature comparison. -/
theorem verify_unparseable_timestamp_skips_freshness
    (hmacHex : String → String → String) (s : String) (now : Int)
    (body signature timestamp : String)
    (hp : parseIntJs timestamp = none) (hs : (s == "") = false) :
    freshnessFails now timestamp = false
    ∧ verifySlackSignature hmacHex (some s) now body signature timestamp
        = timingSafeEqual signature (expectedSignature hmacHex s timestamp body) := by
  have hf : freshnessFails now timestamp = false := by
    unfold freshnessFails
    rw [hp]
  exact ⟨hf, by simp [verifySlackSignature, hs, hf]⟩

/-- Witness for C10 at the concrete timestamp "abc". -/
theorem verify_unparseable_timestamp_skips_freshness_witness :
    parseIntJs "abc" = none
    ∧ freshnessFails 1700000000 "abc" = false
    ∧ verifySlackSignature constHmacHex (some "secret") 1700000000 "{}" "v0=x" "abc"
        = timingSafeEqual "v0=x" (expectedSignature constHmacHex "secret" "abc" "{}") :=
  ⟨by decide,
   (verify_unparseable_timestamp_skips_freshness constHmacHex "secret" 1700000000 "{}"
      "v0=x" "abc" (by decide) (by decide)).1,
   (verify_unparseable_timestamp_skips_freshness constHmacHex "secret" 1700000000 "{}"
      "v0=x" "abc" (by decide) (by decide)).2⟩

/-- C3: contrary to the claim, `verifySlackSignature` is not total —
when the secret is configured, the freshness check passes, and the
claimed signature's byte length differs from the expected signature's
(67 bytes for a real digest), the unguarded `crypto.timingSafeEqual`
call throws a `RangeError` instead of returning false. -/
theorem verify_throws_on_signature_length_mismatch
    (hmacHex : String → String → String) (s : String) (now : Int)
    (body signature timestamp : String)
    (hs : (s == "") = false)
    (hf : freshnessFails now timestamp = false)
    (hlen : signature.utf8ByteSize ≠ (expectedSignature hmacHex s timestamp body).utf8ByteSize) :
    verifySlackSignature hmacHex (some s) now body signature timestamp
      = .error rangeErrorMessage := by
  simp [verifySlackSignature, hs, hf, timingSafeEqual, hlen]

/-- Witness for C3's failing input: a fresh, well-formed request whose
claimed signature "v0=short" is shorter than the 67-byte expected
signature makes the verifier throw. -/
theorem verify_throws_on_signature_length_mismatch_witness :
    verifySlackSignature constHmacHex (some "test_signing_secret") 1700000000 "{}"
      "v0=short" "1700000000" = .error rangeErrorMessage :=
  verify_throws_on_signature_length_mismatch constHmacHex "test_signing_secret"
    1700000000 "{}" "v0=short" "1700000000" (by decide) (by decide) (by decide)

/-- C5: when a platform-gateway URL is configured `routeToAgent` makes
exactly one gateway call; a successful gateway call's body is returned
with no direct-routing attempt and no direct HTTP call; a failed gateway
call is followed by exactly one direct-routing attempt whose result is
what is returned; without a gateway URL, direct routing runs immediately
and no gateway call is made. -/
theorem routeToAgent_gateway_preferred_single_fallback
    (gw : Option String) (cfg : AgentUrls) (req : AgentRequest)
    (gatewayOutcome directOutcome : Except Unit AgentResponse) (now : String) :
    (jsFalsy gw = false →
      (routeToAgent gw cfg req gatewayOutcome directOutcome now).2.gatewayCalls = 1)
    ∧ (∀ r, jsFalsy gw = false → gatewayOutcome = .ok r →
        routeToAgent gw cfg req gatewayOutcome directOutcome now = (r, ⟨1, 0, 0⟩))
    ∧ (∀ e, jsFalsy gw = false → gatewayOutcome = .error e →
        routeToAgent gw cfg req gatewayOutcome directOutcome now
          = ((routeDirectly cfg req directOutcome now).1,
             ⟨1, 1, (routeDirectly cfg req directOutcome now).2⟩))
    ∧ (jsFalsy gw = true →
        routeToAgent gw cfg req gatewayOutcome directOutcome now
          = ((routeDirectly cfg req directOutcome now).1,
             ⟨0, 1, (routeDirectly cfg req directOutcome now).2⟩)) := by
  refine ⟨?_, ?_, ?_, ?_⟩
  · intro h
    cases gatewayOutcome <;> simp [routeToAgent, h, routeViaPlatformGateway]
  · intro r h hg
    subst hg
    simp [routeToAgent, h, routeViaPlatformGateway]
  · intro e h hg
    subst hg
    simp [routeToAgent, h, routeViaPlatformGateway]
  · intro h
    simp [routeToAgent, h]

/-- Witness for C5: a configured gateway with a successful call returns
its body with no direct attempt; a failed gateway call yields one direct
attempt; no gateway URL goes straight to direct routing. -/
theorem routeToAgent_gateway_preferred_single_fallback_witness :
    routeToAgent (some "https://gw") emptyUrls ⟨"hello", "U1"⟩ (.ok sampleOk)
      (.error ()) "T" = (sampleOk, ⟨1, 0, 0⟩)
    ∧ (routeToAgent (some "https://gw") emptyUrls ⟨"hello", "U1"⟩ (.error ())
        (.error ()) "T").2.directAttempts = 1
    ∧ routeToAgent none emptyUrls ⟨"hello", "U1"⟩ (.ok sampleOk) (.error ()) "T"
        = ((routeDirectly emptyUrls ⟨"hello", "U1"⟩ (.error ()) "T").1,
           ⟨0, 1, (routeDirectly emptyUrls ⟨"hello", "U1"⟩ (.error ()) "T").2⟩) := by
  refine ⟨?_, ?_, ?_⟩
  · exact (routeToAgent_gateway_preferred_single_fallback (some "https://gw") emptyUrls
      ⟨"hello", "U1"⟩ (.ok sampleOk) (.error ()) "T").2.1 sampleOk (by decide) rfl
  · have h := (routeToAgent_gateway_preferred_single_fallback (some "https://gw")
      emptyUrls ⟨"hello", "U1"⟩ (.error ()) (.error ()) "T").2.2.1 () (by decide) rfl
    rw [h]
  · exact (routeToAgent_gateway_preferred_single_fallback none emptyUrls
      ⟨"hello", "U1"⟩ (.ok sampleOk) (.error ()) "T").2.2.2 (by decide)

/-- C7: when the classified category (including the compliance default)
has no configured endpoint URL, `routeDirectly` returns the
`No suitable agent found` failure with zero HTTP calls, and that message
is distinct from the transient-failure message of a failed direct HTTP
attempt. -/
theorem routeDirectly_no_endpoint_fails_without_call
    (cfg : AgentUrls) (req : AgentRequest)
    (directOutcome : Except Unit AgentResponse) (now : String)
    (h : determineAgentUrl cfg req.message = none) :
    routeDirectly cfg req directOutcome now = (noAgentFoundResponse now, 0)
    ∧ noAgentFoundMessage ≠ directErrorMessage := by
  constructor
  · unfold routeDirectly
    rw [h]
  · decide

/-- Witness for C7: with no endpoint configured at all, the message
"random text" classifies to the compliance default, whose URL is unset. -/
theorem routeDirectly_no_endpoint_fails_without_call_witness :
    routeDirectly emptyUrls ⟨"random text", "U1"⟩ (.error ()) "T"
      = (noAgentFoundResponse "T", 0)
    ∧ noAgentFoundMessage ≠ directErrorMessage :=
  routeDirectly_no_endpoint_fails_without_call emptyUrls ⟨"random text", "U1"⟩
    (.error ()) "T" (by decide)

/-- The source's `if`-cascade agrees with the spec's ordered-table,
first-match-wins classification on every lower-cased message. -/
theorem categoryOfLower_eq_firstMatch (ml : String) :
    categoryOfLower ml = firstMatchCategoryLower ml := by
  unfold categoryOfLower firstMatchCategoryLower specEvaluationOrder
  cases h1 : matchesAny ml complianceKeywords with
  | true => simp [List.find?, h1]
  | false =>
  cases h2 : matchesAny ml formulationKeywords with
  | true => simp [List.find?, h1, h2]
  | false =>
  cases h3 : matchesAny ml scienceKeywords with
  | true => simp [List.find?, h1, h2, h3]
  | false =>
  cases h4 : matchesAny ml marketingKeywords with
  | true => simp [List.find?, h1, h2, h3, h4]
  | false =>
  cases h5 : matchesAny ml operationsKeywords with
  | true => simp [List.find?, h1, h2, h3, h4, h5]
  | false =>
  cases h6 : matchesAny ml sourcingKeywords with
  | true => simp [List.find?, h1, h2, h3, h4, h5, h6]
  | false =>
  cases h7 : matchesAny ml patentKeywords with
  | true => simp [List.find?, h1, h2, h3, h4, h5, h6, h7]
  | false =>
  cases h8 : matchesAny ml spectraKeywords with
  | true => simp [List.find?, h1, h2, h3, h4, h5, h6, h7, h8]
  | false =>
  cases h9 : matchesAny ml customerSuccessKeywords with
  | true => simp [List.find?, h1, h2, h3, h4, h5, h6, h7, h8, h9]
  | false => simp [List.find?, h1, h2, h3, h4, h5, h6, h7, h8, h9]

/-- C6: keyword classification is the first-match scan of the fixed
category order compliance, formulation, science, marketing, operations,
sourcing, patent, lab-analysis (spectra), customer-support over the
lower-cased message, and any message containing "testing" or "analysis"
that matches no compliance or formulation keyword is classified science,
so the lab-analysis category is never reached for it. -/
theorem classification_fixed_order_first_match :
    (∀ msg, categoryOf msg = firstMatchCategory msg)
    ∧ (∀ msg,
        (jsIncludes (jsToLower msg) "testing" = true
          ∨ jsIncludes (jsToLower msg) "analysis" = true) →
        matchesAny (jsToLower msg) complianceKeywords = false →
        matchesAny (jsToLower msg) formulationKeywords = false →
        categoryOf msg = some AgentCategory.science) := by
  constructor
  · intro msg
    exact categoryOfLower_eq_firstMatch (jsToLower msg)
  · intro msg h hc hf
    have hs : matchesAny (jsToLower msg) scienceKeywords = true := by
      rcases h with h | h <;> simp [matchesAny, scienceKeywords, h]
    simp [categoryOf, categoryOfLower, hc, hf, hs]

/-- Witness for C6 at the concrete message "unit testing". -/
theorem classification_fixed_order_first_match_witness :
    categoryOf "unit testing" = firstMatchCategory "unit testing"
    ∧ categoryOf "unit testing" = some AgentCategory.science :=
  ⟨(classification_fixed_order_first_match).1 "unit testing",
   (classification_fixed_order_first_match).2 "unit testing"
     (Or.inl (by decide)) (by decide) (by decide)⟩

/-- C8 counterexample: "shipping" matches no category before patent and
does not contain the spaced token " ip ", yet the code classifies it as
patent, because the source tests the bare substring `'ip'`. -/
theorem patent_bare_ip_counterexample :
    matchesAny (jsToLower "shipping") complianceKeywords = false
    ∧ matchesAny (jsToLower "shipping") formulationKeywords = false
    ∧ matchesAny (jsToLower "shipping") scienceKeywords = false
    ∧ matchesAny (jsToLower "shipping") marketingKeywords = false
    ∧ matchesAny (jsToLower "shipping") operationsKeywords = false
    ∧ matchesAny (jsToLower "shipping") sourcingKeywords = false
    ∧ jsIncludes (jsToLower "shipping") " ip " = false
    ∧ categoryOf "shipping" = some AgentCategory.patent := by
  decide

/-- C8 amended: the patent/IP keywords are "patent",
"intellectual property", the bare substring "ip" (no surrounding
spaces), "trademark" and "copyright"; consequently a message containing
"ip" anywhere — also inside a longer word such as "shipping" — and
matching no earlier category is classified as patent/IP. -/
theorem patent_matches_bare_ip_substring (msg : String)
    (h : jsIncludes (jsToLower msg) "ip" = true)
    (h1 : matchesAny (jsToLower msg) complianceKeywords = false)
    (h2 : matchesAny (jsToLower msg) formulationKeywords = false)
    (h3 : matchesAny (jsToLower msg) scienceKeywords = false)
    (h4 : matchesAny (jsToLower msg) marketingKeywords = false)
    (h5 : matchesAny (jsToLower msg) operationsKeywords = false)
    (h6 : matchesAny (jsToLower msg) sourcingKeywords = false) :
    patentKeywords = ["patent", "intellectual property", "ip", "trademark", "copyright"]
    ∧ categoryOf msg = some AgentCategory.patent := by
  constructor
  · rfl
  · have hp : matchesAny (jsToLower msg) patentKeywords = true := by
      simp [matchesAny, patentKeywords, h]
    simp [categoryOf, categoryOfLower, h1, h2, h3, h4, h5, h6, hp]

/-- Witness for the amended C8 at the concrete message "shipping". -/
theorem patent_matches_bare_ip_substring_witness :
    patentKeywords = ["patent", "intellectual property", "ip", "trademark", "copyright"]
    ∧ categoryOf "shipping" = some AgentCategory.patent :=
  patent_matches_bare_ip_substring "shipping" (by decide) (by decide) (by decide)
    (by decide) (by decide) (by decide) (by decide)

/-- C9 counterexample: when the routing call inside
`processSlackCommand` throws an `Error` with message
"connect ECONNREFUSED 127.0.0.1:443", the slash-command reply text is
"Error: connect ECONNREFUSED 127.0.0.1:443" — it contains the
exception's own message text rather than a generic classified one. -/
theorem command_error_reply_contains_exception_text :
    processSlackCommand (.error (.err "connect ECONNREFUSED 127.0.0.1:443"))
      = ⟨SlackResponseType.ephemeral, "Error: connect ECONNREFUSED 127.0.0.1:443", none⟩
    ∧ jsIncludes "Error: connect ECONNREFUSED 127.0.0.1:443"
        "connect ECONNREFUSED 127.0.0.1:443" = true := by
  decide

/-- C9 amended: caught exceptions never escape — the handler and the
endpoint catch block always reply with an ephemeral message — but the
reply is the exception's own message prefixed with "Error: "
("Unknown error" for non-Error throws) rather than a generic one; the
failure responses the router itself synthesizes do carry only the two
fixed generic messages. -/
theorem command_errors_wrapped_with_error_label :
    (∀ e, processSlackCommand (.error e)
        = ⟨SlackResponseType.ephemeral, "Error: " ++ thrownMessage e, none⟩)
    ∧ (∀ r, r.success = false →
        processSlackCommand (.ok r)
          = ⟨SlackResponseType.ephemeral, "Error: " ++ r.message, none⟩)
    ∧ (∀ e, commandsEndpointCatch e
        = ⟨SlackResponseType.ephemeral, "Error: " ++ thrownMessage e, none⟩)
    ∧ (∀ cfg req e now,
        (routeDirectly cfg req (.error e) now).1.message = noAgentFoundMessage
        ∨ (routeDirectly cfg req (.error e) now).1.message = directErrorMessage) := by
  refine ⟨fun e => rfl, ?_, fun e => rfl, ?_⟩
  · intro r h
    simp [processSlackCommand, h]
  · intro cfg req e now
    unfold routeDirectly
    cases determineAgentUrl cfg req.message with
    | none => exact Or.inl rfl
    | some u => exact Or.inr rfl

/-- Witness for the amended C9 at a concrete failed response. -/
theorem command_errors_wrapped_with_error_label_witness :
    processSlackCommand (.ok ⟨false, "boom", none, none, none⟩)
      = ⟨SlackResponseType.ephemeral, "Error: " ++ "boom", none⟩ :=
  (command_errors_wrapped_with_error_label).2.1 ⟨false, "boom", none, none, none⟩ rfl
